import Mathlib

/-!
Shallow embedding of the go-mem0 client library (package `client` of
murilopl/go-mem0) and proofs about its request-construction and
error-classification layer.

The embedding follows the Go source: option structs become Lean structures of
`Option`-typed fields (a `nil` pointer / `nil` interface is `none`), the
generic decoded JSON value (`interface{}`) becomes `JValue`, Go maps built by
a fixed sequence of conditional inserts with pairwise-distinct literal keys
become association lists in insertion order, and the two error types of
`errors.go` plus errors built with `fmt.Errorf` become the `GoErr` sum.
Network effects are passed in explicitly: an HTTP exchange is an
`HTTPOutcome` value, and the per-entity DELETE calls of `DeleteUsers` are a
function from entity type and name to the call's outcome.
-/

namespace Mem0

/-- A decoded JSON value, the Go `interface{}` result of `json.Unmarshal`.
Numbers are restricted to integers: every numeric field the claims touch
(org/project ids, page numbers) is integral. -/
inductive JValue where
  | null : JValue
  | bool : Bool → JValue
  | num : Int → JValue
  | str : String → JValue
  | arr : List JValue → JValue
  | obj : List (String × JValue) → JValue

/-- The errors a client operation can return: `APIError` and
`ValidationError` from `errors.go`, and the plain errors built with
`fmt.Errorf` (wrapped or fresh), which carry only their message string. -/
inductive GoErr where
  | apiError (message : String) (statusCode : Int) (body : String)
  | validationErr (field : String) (message : String)
  | wrapped (message : String)
  deriving DecidableEq

/-- A single-quote character, used by `ValidationError.Error()`. -/
def squote : String := (Char.ofNat 39).toString

/-- The `Error()` string of a `GoErr`, following `errors.go` and the fact
that a `fmt.Errorf` error's string is its formatted message. -/
def GoErr.errString : GoErr → String
  | .apiError m s _ =>
      if s > 0 then "API request failed (status " ++ toString s ++ "): " ++ m
      else "API request failed: " ++ m
  | .validationErr f m =>
      if f = "" then "validation error: " ++ m
      else "validation error for field " ++ squote ++ f ++ squote ++ ": " ++ m
  | .wrapped m => m

/-- Whether an error is a `*client.APIError` (the type-switch test of the
documented error-handling pattern). -/
def GoErr.isAPIErr : GoErr → Bool
  | .apiError _ _ _ => true
  | _ => false

/-- Whether an error is a `*client.ValidationError`. -/
def GoErr.isValidationErr : GoErr → Bool
  | .validationErr _ _ => true
  | _ => false

/-- An organization/project identifier: a Go `interface{}` documented as
"string or number". A `nil` interface is `none` at the use sites. -/
inductive OrgVal where
  | str (s : String)
  | num (n : Int)
  deriving DecidableEq

/-- The identifier as a JSON value: `payload["org_id"] = options.OrgID`
stores the runtime value unchanged. -/
def OrgVal.toJ : OrgVal → JValue
  | .str s => .str s
  | .num n => .num n

/-- `fmt.Sprintf("%v", v)`: a string prints as itself, a number as its
decimal digits. Used by `prepareParams` for `org_id`/`project_id`. -/
def OrgVal.formatV : OrgVal → String
  | .str s => s
  | .num n => toString n

/-- A chat message (`types.go`): role plus a content value that is a string
or a multi-modal object, kept as a JSON value. -/
structure Message where
  role : String
  content : JValue

/-- A message as the JSON object it marshals to. -/
def Message.toJ (m : Message) : JValue :=
  .obj [("role", .str m.role), ("content", m.content)]

/-- `MemoryOptions` of `types.go`: every field is a pointer, slice, map or
interface, hence `Option`; a `nil` field is `none`. -/
structure MemoryOptions where
  apiVersion : Option String := none
  version : Option String := none
  userID : Option String := none
  agentID : Option String := none
  appID : Option String := none
  runID : Option String := none
  metadata : Option (List (String × JValue)) := none
  filters : Option (List (String × JValue)) := none
  orgName : Option String := none
  projectName : Option String := none
  orgID : Option OrgVal := none
  projectID : Option OrgVal := none
  infer : Option Bool := none
  page : Option Int := none
  pageSize : Option Int := none
  includes : Option String := none
  excludes : Option String := none
  enableGraph : Option Bool := none
  startDate : Option String := none
  endDate : Option String := none
  customCategories : Option (List (List (String × JValue))) := none
  customInstructions : Option String := none
  timestamp : Option Int := none
  outputFormat : Option String := none
  asyncMode : Option Bool := none

/-- `SearchOptions` of `types.go`: an embedded `MemoryOptions` plus the
search-only fields. `enableGraph` here is the struct's own field, distinct
from the embedded one, exactly as in the Go struct. `threshold` is the one
`float64` field; no claim inspects its value. -/
structure SearchOptions where
  memoryOptions : MemoryOptions := {}
  limit : Option Int := none
  enableGraph : Option Bool := none
  threshold : Option Float := none
  topK : Option Int := none
  onlyMetadataBasedSearch : Option Bool := none
  keywordSearch : Option Bool := none
  fields : Option (List String) := none
  categories : Option (List String) := none
  rerank : Option Bool := none

/-- `ClientOptions` of `client.go`. -/
structure ClientOptions where
  apiKey : String
  host : Option String := none
  organizationName : Option String := none
  projectName : Option String := none
  organizationID : Option OrgVal := none
  projectID : Option OrgVal := none

/-- The `MemoryClient` struct fields the request-building layer reads. -/
structure MemoryClient where
  apiKey : String
  host : String
  organizationName : Option String
  projectName : Option String
  organizationID : Option OrgVal
  projectID : Option OrgVal
  telemetryID : String

/-- `DeleteUsersParams` of `types.go`. -/
structure DeleteUsersParams where
  userID : Option String := none
  agentID : Option String := none
  appID : Option String := none
  runID : Option String := none
  deriving DecidableEq

/-- A user entity (`types.go`); timestamps are kept as their wire strings. -/
structure User where
  id : String
  name : String
  createdAt : String
  updatedAt : String
  totalMemories : Int
  owner : String
  type : String

/-- `MessageResponse` of `types.go`. -/
structure MessageResponse where
  message : String
  deriving DecidableEq

/-- A conditional map entry: the Go pattern
`if x != nil { payload[key] = v }` contributes this segment to the map,
written as an insertion-ordered association list (all keys are pairwise
distinct literals, so insertion is append). -/
def optEntry {α : Type} (key : String) : Option α → List (String × α)
  | none => []
  | some v => [(key, v)]

/-- Map lookup on an association list (first match). -/
def lookupKey {α : Type} (key : String) : List (String × α) → Option α
  | [] => none
  | (k, v) :: rest => if key = k then some v else lookupKey key rest

/-- `preparePayload` of `client.go`: the body map for Add, starting with the
messages and followed by every recognized option field in source order, each
included only when set. -/
def preparePayload (messages : List Message) (options : MemoryOptions) :
    List (String × JValue) :=
  [("messages", JValue.arr (messages.map Message.toJ))]
    ++ optEntry "api_version" (options.apiVersion.map JValue.str)
    ++ optEntry "version" (options.version.map JValue.str)
    ++ optEntry "user_id" (options.userID.map JValue.str)
    ++ optEntry "agent_id" (options.agentID.map JValue.str)
    ++ optEntry "app_id" (options.appID.map JValue.str)
    ++ optEntry "run_id" (options.runID.map JValue.str)
    ++ optEntry "metadata" (options.metadata.map JValue.obj)
    ++ optEntry "filters" (options.filters.map JValue.obj)
    ++ optEntry "org_name" (options.orgName.map JValue.str)
    ++ optEntry "project_name" (options.projectName.map JValue.str)
    ++ optEntry "org_id" (options.orgID.map OrgVal.toJ)
    ++ optEntry "project_id" (options.projectID.map OrgVal.toJ)
    ++ optEntry "infer" (options.infer.map JValue.bool)
    ++ optEntry "enable_graph" (options.enableGraph.map JValue.bool)
    ++ optEntry "custom_categories"
        (options.customCategories.map (fun l => JValue.arr (l.map JValue.obj)))
    ++ optEntry "custom_instructions" (options.customInstructions.map JValue.str)
    ++ optEntry "output_format" (options.outputFormat.map JValue.str)
    ++ optEntry "async_mode" (options.asyncMode.map JValue.bool)

/-- `prepareParams` of `client.go`, `MemoryOptions` branch: the
`url.Values` built by the eight `params.Add` calls in source order, with
`org_id`/`project_id` rendered through `fmt.Sprintf("%v", ·)`. -/
def prepareParamsMemory (o : MemoryOptions) : List (String × String) :=
  optEntry "user_id" o.userID
    ++ optEntry "agent_id" o.agentID
    ++ optEntry "app_id" o.appID
    ++ optEntry "run_id" o.runID
    ++ optEntry "org_name" o.orgName
    ++ optEntry "project_name" o.projectName
    ++ optEntry "org_id" (o.orgID.map OrgVal.formatV)
    ++ optEntry "project_id" (o.projectID.map OrgVal.formatV)

/-- `prepareParams`, `SearchOptions` branch: only the embedded `UserID` is
serialized (the source handles just that field in this case). -/
def prepareParamsSearch (so : SearchOptions) : List (String × String) :=
  optEntry "user_id" so.memoryOptions.userID

/-- Go `unicode.IsSpace`: the Unicode White_Space code points, which is what
`strings.TrimSpace` trims. -/
def isGoSpace (c : Char) : Bool :=
  c = ' ' || c = '\t' || c = '\n' || c = Char.ofNat 11 || c = Char.ofNat 12 ||
  c = '\r' || c = Char.ofNat 0x85 || c = Char.ofNat 0xA0 ||
  c = Char.ofNat 0x1680 || (0x2000 ≤ c.toNat && c.toNat ≤ 0x200A) ||
  c = Char.ofNat 0x2028 || c = Char.ofNat 0x2029 || c = Char.ofNat 0x202F ||
  c = Char.ofNat 0x205F || c = Char.ofNat 0x3000

/-- `strings.TrimSpace` at the character-list level: drop leading and
trailing white space. -/
def trimChars (l : List Char) : List Char :=
  ((l.dropWhile isGoSpace).reverse.dropWhile isGoSpace).reverse

/-- `validateAPIKey` of `client.go`: empty keys and whitespace-only keys
fail with a `ValidationError` on field `apiKey`. -/
def validateAPIKey (apiKey : String) : Option GoErr :=
  if apiKey = "" then
    some (.validationErr "apiKey" "Mem0 API key is required")
  else if trimChars apiKey.toList = [] then
    some (.validationErr "apiKey" "Mem0 API key cannot be empty")
  else none

/-- `NewMemoryClient` of `client.go`, paired with the list of network
requests it issues. Validation runs first; only after it succeeds is the
client built and the connectivity probe (`GET /v1/ping/`) attempted, whose
failure is logged but does not fail construction. -/
def NewMemoryClient (options : ClientOptions) :
    Except GoErr MemoryClient × List String :=
  match validateAPIKey options.apiKey with
  | some e => (.error e, [])
  | none =>
      (.ok { apiKey := options.apiKey
           , host := options.host.getD "https://api.mem0.ai"
           , organizationName := options.organizationName
           , projectName := options.projectName
           , organizationID := options.organizationID
           , projectID := options.projectID
           , telemetryID := "" },
       ["GET /v1/ping/"])

/-- The outcome of one HTTP exchange, as seen by
`fetchWithErrorHandling`: either `httpClient.Do` failed (no response), or a
response arrived with a status code, a raw body, and the result of
`json.Unmarshal` on that body (consulted only for 2xx responses). -/
inductive HTTPOutcome where
  | transportErr (message : String)
  | response (statusCode : Int) (body : String) (decoded : Except String JValue)

/-- The error-classification core of `fetchWithErrorHandling`: transport
failures and malformed JSON become plain wrapped errors, any status outside
2xx becomes an `APIError` carrying the status and the raw body as both
message and body. -/
def fetchWithErrorHandling : HTTPOutcome → Except GoErr JValue
  | .transportErr msg => .error (.wrapped ("request failed: " ++ msg))
  | .response status body decoded =>
      if status < 200 ∨ status ≥ 300 then .error (.apiError body status body)
      else
        match decoded with
        | .error jsonErr =>
            .error (.wrapped ("failed to parse response JSON: " ++ jsonErr))
        | .ok v => .ok v

/-- The org/project merging step shared by `Add`, `GetAll`, `DeleteAll`,
`Users` and `DeleteUsers`: client-level name pair is copied in when both
names are set, then the id pair overrides and clears the names when both
ids are set. -/
def mergeOrgProject (c : MemoryClient) (o : MemoryOptions) : MemoryOptions :=
  let o1 :=
    match c.organizationName, c.projectName with
    | some onm, some pnm => { o with orgName := some onm, projectName := some pnm }
    | _, _ => o
  match c.organizationID, c.projectID with
  | some oid, some pid =>
      { o1 with orgID := some oid, projectID := some pid
              , orgName := none, projectName := none }
  | _, _ => o1

/-- The `APIVersion`-to-`Version` mirroring step of `Add`. -/
def applyVersion (o : MemoryOptions) : MemoryOptions :=
  match o.apiVersion with
  | some v => { o with version := some v }
  | none => o

/-- The body `Add` sends to `POST /v1/memories/`: options merged with the
client's org/project identity, `Version` mirrored from `APIVersion`, then
rendered by `preparePayload`. -/
def addPayload (c : MemoryClient) (messages : List Message) (o : MemoryOptions) :
    List (String × JValue) :=
  preparePayload messages (applyVersion (mergeOrgProject c o))

/-- An HTTP request in structured form: the query is kept as the list of
parameters the Go code renders into the endpoint string. -/
structure HTTPRequest where
  method : String
  path : String
  query : List (String × String)
  body : Option (List (String × JValue))

/-- The pagination parameters of `GetAll`: emitted exactly when both
`Page` and `PageSize` are set. -/
def paginationParams (m : MemoryOptions) : List (String × String) :=
  match m.page, m.pageSize with
  | some p, some ps => [("page", toString p), ("page_size", toString ps)]
  | _, _ => []

/-- The request `GetAll` issues: the org/project merge is applied to the
embedded `MemoryOptions` of the `SearchOptions` argument, then API version
v2 selects `POST /v2/memories/` with a body holding only the org/project
context, anything else selects `GET /v1/memories/` with the options
serialized as query parameters; pagination parameters are appended in both
branches. -/
def getAllRequest (c : MemoryClient) (options : SearchOptions) : HTTPRequest :=
  let m := mergeOrgProject c options.memoryOptions
  if m.apiVersion = some "v2" then
    { method := "POST", path := "/v2/memories/", query := paginationParams m
    , body := some (optEntry "org_id" (m.orgID.map OrgVal.toJ)
                    ++ optEntry "project_id" (m.projectID.map OrgVal.toJ)) }
  else
    { method := "GET", path := "/v1/memories/"
    , query := prepareParamsMemory m ++ paginationParams m, body := none }

/-- The filter resolution of `DeleteUsers`: the if/else-if chain picks the
single target named by the highest-priority set field, or `none` when no
filter field is set. -/
def resolveTargets (p : DeleteUsersParams) : Option (List (String × String)) :=
  match p.userID with
  | some u => some [("user", u)]
  | none =>
    match p.agentID with
    | some a => some [("agent", a)]
    | none =>
      match p.appID with
      | some a => some [("app", a)]
      | none =>
        match p.runID with
        | some r => some [("run", r)]
        | none => none

/-- The sequential deletion loop of `DeleteUsers`: one DELETE per target in
order; the first failure stops the loop and is re-wrapped as an `APIError`
with status 0 naming the failing entity. Returns the terminal error (if
any) and the list of DELETE calls actually issued. -/
def deleteLoop (deleteResult : String → String → Except GoErr JValue) :
    List (String × String) → Option GoErr × List (String × String)
  | [] => (none, [])
  | (t, n) :: rest =>
    match deleteResult t n with
    | .error e =>
        (some (.apiError
          ("Failed to delete " ++ t ++ " " ++ n ++ ": " ++ e.errString) 0 ""),
         [(t, n)])
    | .ok _ =>
        let r := deleteLoop deleteResult rest
        (r.1, (t, n) :: r.2)

/-- `DeleteUsers` of `client.go`. `params` models the variadic argument
(the first element is used when present), `usersResult` the outcome of the
`Users` call made when no filter is given, and `deleteResult` the outcome
of `DELETE /v2/entities/{type}/{name}/` per entity. Returns the operation
result and the list of DELETE calls issued, in order. -/
def deleteUsersRun (params : List DeleteUsersParams)
    (usersResult : Except GoErr (List User))
    (deleteResult : String → String → Except GoErr JValue) :
    Except GoErr MessageResponse × List (String × String) :=
  let dp := params.headD {}
  let toDeleteE : Except GoErr (List (String × String)) :=
    match resolveTargets dp with
    | some l => .ok l
    | none => usersResult.map (fun es => es.map (fun e => (e.type, e.name)))
  match toDeleteE with
  | .error e => (.error e, [])
  | .ok toDelete =>
    if toDelete = [] then (.error (.wrapped "no entities to delete"), [])
    else
      match deleteLoop deleteResult toDelete with
      | (some e, calls) => (.error e, calls)
      | (none, calls) =>
          let msg :=
            if (resolveTargets dp).isSome then "Entity deleted successfully."
            else "All users, agents, apps and runs deleted."
          (.ok ⟨msg⟩, calls)

/-- An `Except` value that is `ok` (a successful call). -/
def isOkB {ε α : Type} : Except ε α → Bool
  | .ok _ => true
  | .error _ => false

/-! ### Lookup machinery for the built maps -/

theorem lookupKey_append {α : Type} (k : String) (xs ys : List (String × α)) :
    lookupKey k (xs ++ ys) = (lookupKey k xs).or (lookupKey k ys) := by
  induction xs with
  | nil => simp [lookupKey]
  | cons p rest ih =>
    rcases p with ⟨k', v⟩
    by_cases h : k = k'
    · simp [lookupKey, h]
    · simp [lookupKey, h, ih]

theorem lookupKey_optEntry {α : Type} (k k' : String) (v : Option α) :
    lookupKey k (optEntry k' v) = if k = k' then v else none := by
  cases v with
  | none => simp [optEntry, lookupKey]
  | some x => simp [optEntry, lookupKey]

/-! ### Per-key characterization of `preparePayload` -/


theorem lookupKey_nil {α : Type} (k : String) : lookupKey (α := α) k [] = none := rfl

theorem lookupKey_cons {α : Type} (k k' : String) (v : α) (rest : List (String × α)) :
    lookupKey k ((k', v) :: rest) = if k = k' then some v else lookupKey k rest := rfl

theorem payload_lookup_api_version (ms : List Message) (o : MemoryOptions) :
    lookupKey "api_version" (preparePayload ms o) = o.apiVersion.map JValue.str := by
  simp only [preparePayload, lookupKey_append, lookupKey_optEntry, lookupKey_cons,
    lookupKey_nil, String.reduceEq, reduceIte, Option.none_or, Option.or_none]

theorem payload_lookup_version (ms : List Message) (o : MemoryOptions) :
    lookupKey "version" (preparePayload ms o) = o.version.map JValue.str := by
  simp only [preparePayload, lookupKey_append, lookupKey_optEntry, lookupKey_cons,
    lookupKey_nil, String.reduceEq, reduceIte, Option.none_or, Option.or_none]

theorem payload_lookup_user_id (ms : List Message) (o : MemoryOptions) :
    lookupKey "user_id" (preparePayload ms o) = o.userID.map JValue.str := by
  simp only [preparePayload, lookupKey_append, lookupKey_optEntry, lookupKey_cons,
    lookupKey_nil, String.reduceEq, reduceIte, Option.none_or, Option.or_none]

theorem payload_lookup_agent_id (ms : List Message) (o : MemoryOptions) :
    lookupKey "agent_id" (preparePayload ms o) = o.agentID.map JValue.str := by
  simp only [preparePayload, lookupKey_append, lookupKey_optEntry, lookupKey_cons,
    lookupKey_nil, String.reduceEq, reduceIte, Option.none_or, Option.or_none]

theorem payload_lookup_app_id (ms : List Message) (o : MemoryOptions) :
    lookupKey "app_id" (preparePayload ms o) = o.appID.map JValue.str := by
  simp only [preparePayload, lookupKey_append, lookupKey_optEntry, lookupKey_cons,
    lookupKey_nil, String.reduceEq, reduceIte, Option.none_or, Option.or_none]

theorem payload_lookup_run_id (ms : List Message) (o : MemoryOptions) :
    lookupKey "run_id" (preparePayload ms o) = o.runID.map JValue.str := by
  simp only [preparePayload, lookupKey_append, lookupKey_optEntry, lookupKey_cons,
    lookupKey_nil, String.reduceEq, reduceIte, Option.none_or, Option.or_none]

theorem payload_lookup_metadata (ms : List Message) (o : MemoryOptions) :
    lookupKey "metadata" (preparePayload ms o) = o.metadata.map JValue.obj := by
  simp only [preparePayload, lookupKey_append, lookupKey_optEntry, lookupKey_cons,
    lookupKey_nil, String.reduceEq, reduceIte, Option.none_or, Option.or_none]

theorem payload_lookup_filters (ms : List Message) (o : MemoryOptions) :
    lookupKey "filters" (preparePayload ms o) = o.filters.map JValue.obj := by
  simp only [preparePayload, lookupKey_append, lookupKey_optEntry, lookupKey_cons,
    lookupKey_nil, String.reduceEq, reduceIte, Option.none_or, Option.or_none]

theorem payload_lookup_org_name (ms : List Message) (o : MemoryOptions) :
    lookupKey "org_name" (preparePayload ms o) = o.orgName.map JValue.str := by
  simp only [preparePayload, lookupKey_append, lookupKey_optEntry, lookupKey_cons,
    lookupKey_nil, String.reduceEq, reduceIte, Option.none_or, Option.or_none]

theorem payload_lookup_project_name (ms : List Message) (o : MemoryOptions) :
    lookupKey "project_name" (preparePayload ms o) = o.projectName.map JValue.str := by
  simp only [preparePayload, lookupKey_append, lookupKey_optEntry, lookupKey_cons,
    lookupKey_nil, String.reduceEq, reduceIte, Option.none_or, Option.or_none]

theorem payload_lookup_org_id (ms : List Message) (o : MemoryOptions) :
    lookupKey "org_id" (preparePayload ms o) = o.orgID.map OrgVal.toJ := by
  simp only [preparePayload, lookupKey_append, lookupKey_optEntry, lookupKey_cons,
    lookupKey_nil, String.reduceEq, reduceIte, Option.none_or, Option.or_none]

theorem payload_lookup_project_id (ms : List Message) (o : MemoryOptions) :
    lookupKey "project_id" (preparePayload ms o) = o.projectID.map OrgVal.toJ := by
  simp only [preparePayload, lookupKey_append, lookupKey_optEntry, lookupKey_cons,
    lookupKey_nil, String.reduceEq, reduceIte, Option.none_or, Option.or_none]

theorem payload_lookup_infer (ms : List Message) (o : MemoryOptions) :
    lookupKey "infer" (preparePayload ms o) = o.infer.map JValue.bool := by
  simp only [preparePayload, lookupKey_append, lookupKey_optEntry, lookupKey_cons,
    lookupKey_nil, String.reduceEq, reduceIte, Option.none_or, Option.or_none]

theorem payload_lookup_enable_graph (ms : List Message) (o : MemoryOptions) :
    lookupKey "enable_graph" (preparePayload ms o) = o.enableGraph.map JValue.bool := by
  simp only [preparePayload, lookupKey_append, lookupKey_optEntry, lookupKey_cons,
    lookupKey_nil, String.reduceEq, reduceIte, Option.none_or, Option.or_none]

theorem payload_lookup_custom_categories (ms : List Message) (o : MemoryOptions) :
    lookupKey "custom_categories" (preparePayload ms o) = o.customCategories.map (fun l => JValue.arr (l.map JValue.obj)) := by
  simp only [preparePayload, lookupKey_append, lookupKey_optEntry, lookupKey_cons,
    lookupKey_nil, String.reduceEq, reduceIte, Option.none_or, Option.or_none]

theorem payload_lookup_custom_instructions (ms : List Message) (o : MemoryOptions) :
    lookupKey "custom_instructions" (preparePayload ms o) = o.customInstructions.map JValue.str := by
  simp only [preparePayload, lookupKey_append, lookupKey_optEntry, lookupKey_cons,
    lookupKey_nil, String.reduceEq, reduceIte, Option.none_or, Option.or_none]

theorem payload_lookup_output_format (ms : List Message) (o : MemoryOptions) :
    lookupKey "output_format" (preparePayload ms o) = o.outputFormat.map JValue.str := by
  simp only [preparePayload, lookupKey_append, lookupKey_optEntry, lookupKey_cons,
    lookupKey_nil, String.reduceEq, reduceIte, Option.none_or, Option.or_none]

theorem payload_lookup_async_mode (ms : List Message) (o : MemoryOptions) :
    lookupKey "async_mode" (preparePayload ms o) = o.asyncMode.map JValue.bool := by
  simp only [preparePayload, lookupKey_append, lookupKey_optEntry, lookupKey_cons,
    lookupKey_nil, String.reduceEq, reduceIte, Option.none_or, Option.or_none]

theorem payload_lookup_other_none (ms : List Message) (o : MemoryOptions) (k : String)
    (h : k ∉ ["messages", "api_version", "version", "user_id", "agent_id", "app_id", "run_id", "metadata", "filters", "org_name", "project_name", "org_id", "project_id", "infer", "enable_graph", "custom_categories", "custom_instructions", "output_format", "async_mode"]) :
    lookupKey k (preparePayload ms o) = none := by
  simp only [List.mem_cons, List.not_mem_nil, or_false, not_or] at h
  obtain ⟨h0, h1, h2, h3, h4, h5, h6, h7, h8, h9, h10, h11, h12, h13, h14, h15, h16, h17, h18⟩ := h
  simp only [preparePayload, lookupKey_append, lookupKey_optEntry, lookupKey_cons,
    lookupKey_nil, h0, h1, h2, h3, h4, h5, h6, h7, h8, h9, h10, h11, h12, h13, h14, h15, h16, h17, h18, if_false,
    Option.none_or, Option.or_none]

theorem params_lookup_user_id (o : MemoryOptions) :
    lookupKey "user_id" (prepareParamsMemory o) = o.userID := by
  simp only [prepareParamsMemory, lookupKey_append, lookupKey_optEntry, lookupKey_cons,
    lookupKey_nil, String.reduceEq, reduceIte, Option.none_or, Option.or_none]

theorem params_lookup_agent_id (o : MemoryOptions) :
    lookupKey "agent_id" (prepareParamsMemory o) = o.agentID := by
  simp only [prepareParamsMemory, lookupKey_append, lookupKey_optEntry, lookupKey_cons,
    lookupKey_nil, String.reduceEq, reduceIte, Option.none_or, Option.or_none]

theorem params_lookup_app_id (o : MemoryOptions) :
    lookupKey "app_id" (prepareParamsMemory o) = o.appID := by
  simp only [prepareParamsMemory, lookupKey_append, lookupKey_optEntry, lookupKey_cons,
    lookupKey_nil, String.reduceEq, reduceIte, Option.none_or, Option.or_none]

theorem params_lookup_run_id (o : MemoryOptions) :
    lookupKey "run_id" (prepareParamsMemory o) = o.runID := by
  simp only [prepareParamsMemory, lookupKey_append, lookupKey_optEntry, lookupKey_cons,
    lookupKey_nil, String.reduceEq, reduceIte, Option.none_or, Option.or_none]

theorem params_lookup_org_name (o : MemoryOptions) :
    lookupKey "org_name" (prepareParamsMemory o) = o.orgName := by
  simp only [prepareParamsMemory, lookupKey_append, lookupKey_optEntry, lookupKey_cons,
    lookupKey_nil, String.reduceEq, reduceIte, Option.none_or, Option.or_none]

theorem params_lookup_project_name (o : MemoryOptions) :
    lookupKey "project_name" (prepareParamsMemory o) = o.projectName := by
  simp only [prepareParamsMemory, lookupKey_append, lookupKey_optEntry, lookupKey_cons,
    lookupKey_nil, String.reduceEq, reduceIte, Option.none_or, Option.or_none]

theorem params_lookup_org_id (o : MemoryOptions) :
    lookupKey "org_id" (prepareParamsMemory o) = o.orgID.map OrgVal.formatV := by
  simp only [prepareParamsMemory, lookupKey_append, lookupKey_optEntry, lookupKey_cons,
    lookupKey_nil, String.reduceEq, reduceIte, Option.none_or, Option.or_none]

theorem params_lookup_project_id (o : MemoryOptions) :
    lookupKey "project_id" (prepareParamsMemory o) = o.projectID.map OrgVal.formatV := by
  simp only [prepareParamsMemory, lookupKey_append, lookupKey_optEntry, lookupKey_cons,
    lookupKey_nil, String.reduceEq, reduceIte, Option.none_or, Option.or_none]

theorem params_lookup_other_none (o : MemoryOptions) (k : String)
    (h : k ∉ ["user_id", "agent_id", "app_id", "run_id", "org_name", "project_name", "org_id", "project_id"]) :
    lookupKey k (prepareParamsMemory o) = none := by
  simp only [List.mem_cons, List.not_mem_nil, or_false, not_or] at h
  obtain ⟨g0, g1, g2, g3, g4, g5, g6, g7⟩ := h
  simp only [prepareParamsMemory, lookupKey_append, lookupKey_optEntry,
    g0, g1, g2, g3, g4, g5, g6, g7, if_false, Option.none_or, Option.or_none]

theorem searchParams_lookup_user_id (so : SearchOptions) :
    lookupKey "user_id" (prepareParamsSearch so) = so.memoryOptions.userID := by
  simp only [prepareParamsSearch, lookupKey_optEntry, reduceIte]

theorem searchParams_lookup_other_none (so : SearchOptions) (k : String)
    (h : k ≠ "user_id") :
    lookupKey k (prepareParamsSearch so) = none := by
  simp only [prepareParamsSearch, lookupKey_optEntry, h, if_false]

/-! ### Preservation lemmas for the option-merging steps -/

theorem mergeOrgProject_apiVersion (c : MemoryClient) (o : MemoryOptions) :
    (mergeOrgProject c o).apiVersion = o.apiVersion := by
  unfold mergeOrgProject
  cases c.organizationName <;> cases c.projectName <;>
    cases c.organizationID <;> cases c.projectID <;> rfl

theorem mergeOrgProject_page (c : MemoryClient) (o : MemoryOptions) :
    (mergeOrgProject c o).page = o.page := by
  unfold mergeOrgProject
  cases c.organizationName <;> cases c.projectName <;>
    cases c.organizationID <;> cases c.projectID <;> rfl

theorem mergeOrgProject_pageSize (c : MemoryClient) (o : MemoryOptions) :
    (mergeOrgProject c o).pageSize = o.pageSize := by
  unfold mergeOrgProject
  cases c.organizationName <;> cases c.projectName <;>
    cases c.organizationID <;> cases c.projectID <;> rfl

theorem mergeOrgProject_ids (c : MemoryClient) (o : MemoryOptions) (oid pid : OrgVal)
    (h1 : c.organizationID = some oid) (h2 : c.projectID = some pid) :
    (mergeOrgProject c o).orgID = some oid ∧ (mergeOrgProject c o).projectID = some pid ∧
    (mergeOrgProject c o).orgName = none ∧ (mergeOrgProject c o).projectName = none := by
  unfold mergeOrgProject
  rw [h1, h2]
  cases c.organizationName <;> cases c.projectName <;> exact ⟨rfl, rfl, rfl, rfl⟩

theorem applyVersion_orgID (o : MemoryOptions) : (applyVersion o).orgID = o.orgID := by
  unfold applyVersion; cases o.apiVersion <;> rfl

theorem applyVersion_projectID (o : MemoryOptions) :
    (applyVersion o).projectID = o.projectID := by
  unfold applyVersion; cases o.apiVersion <;> rfl

theorem applyVersion_orgName (o : MemoryOptions) :
    (applyVersion o).orgName = o.orgName := by
  unfold applyVersion; cases o.apiVersion <;> rfl

theorem applyVersion_projectName (o : MemoryOptions) :
    (applyVersion o).projectName = o.projectName := by
  unfold applyVersion; cases o.apiVersion <;> rfl

/-! ### TrimSpace lemmas -/

theorem dropWhile_forall_iff (p : Char → Bool) (l : List Char) :
    (∀ c ∈ l.dropWhile p, p c) ↔ ∀ c ∈ l, p c := by
  constructor
  · intro h c hc
    rw [← List.takeWhile_append_dropWhile p (l := l)] at hc
    rcases List.mem_append.mp hc with h' | h'
    · exact List.mem_takeWhile_imp h'
    · exact h c h'
  · intro h c hc
    exact h c ((List.dropWhile_sublist p).subset hc)

theorem trimChars_eq_nil_iff (l : List Char) :
    trimChars l = [] ↔ ∀ c ∈ l, isGoSpace c := by
  unfold trimChars
  rw [List.reverse_eq_nil_iff, List.dropWhile_eq_nil_iff]
  simp only [List.mem_reverse]
  exact dropWhile_forall_iff isGoSpace l

/-! ### DeleteUsers loop lemmas -/

theorem deleteLoop_all_ok (dres : String → String → Except GoErr JValue)
    (l : List (String × String))
    (h : ∀ x ∈ l, isOkB (dres x.1 x.2) = true) :
    deleteLoop dres l = (none, l) := by
  induction l with
  | nil => rfl
  | cons x rest ih =>
    rcases x with ⟨t, n⟩
    have hx := h (t, n) (by simp)
    unfold deleteLoop
    cases hd : dres t n with
    | error e => rw [hd] at hx; simp [isOkB] at hx
    | ok v => simp [ih (fun y hy => h y (List.mem_cons_of_mem _ hy))]

theorem deleteLoop_abort (dres : String → String → Except GoErr JValue)
    (pre post : List (String × String)) (t n : String) (e : GoErr)
    (hpre : ∀ x ∈ pre, isOkB (dres x.1 x.2) = true)
    (hfail : dres t n = .error e) :
    deleteLoop dres (pre ++ (t, n) :: post) =
      (some (.apiError
        ("Failed to delete " ++ t ++ " " ++ n ++ ": " ++ e.errString) 0 ""),
       pre ++ [(t, n)]) := by
  induction pre with
  | nil => simp only [List.nil_append]; simp [deleteLoop, hfail]
  | cons x rest ih =>
    rcases x with ⟨t', n'⟩
    have hx := hpre (t', n') (by simp)
    simp only [List.cons_append]
    unfold deleteLoop
    cases hd : dres t' n' with
    | error e' => rw [hd] at hx; simp [isOkB] at hx
    | ok v => simp [ih (fun y hy => hpre y (List.mem_cons_of_mem _ hy))]

/-- `resolveTargets` of the zero value of `DeleteUsersParams` is `none`. -/
theorem resolveTargets_empty : resolveTargets {} = none := rfl

theorem resolveTargets_userID (p : DeleteUsersParams) (u : String)
    (hu : p.userID = some u) : resolveTargets p = some [("user", u)] := by
  unfold resolveTargets; rw [hu]

/-- `DeleteUsers` with no filter over a non-empty entity list, all per-entity
deletes succeeding: one DELETE per entity in order and the bulk message. -/
theorem deleteUsersRun_noFilter_allOk (entities : List User)
    (dres : String → String → Except GoErr JValue)
    (hne : entities ≠ [])
    (h : ∀ e ∈ entities, isOkB (dres e.type e.name) = true) :
    deleteUsersRun [] (.ok entities) dres =
      (.ok ⟨"All users, agents, apps and runs deleted."⟩,
       entities.map fun e => (e.type, e.name)) := by
  have hmap : entities.map (fun e => (e.type, e.name)) ≠ [] := by
    simpa [List.map_eq_nil_iff] using hne
  have hloop := deleteLoop_all_ok dres (entities.map fun e => (e.type, e.name))
    (by intro x hx
        rcases List.mem_map.mp hx with ⟨e, he, rfl⟩
        exact h e he)
  unfold deleteUsersRun
  simp only [List.headD, resolveTargets_empty, Except.map]
  rw [if_neg hmap, hloop]
  rfl

/-- `DeleteUsers` with a user-id filter whose DELETE succeeds: exactly one
call and the single-entity message. The other filter fields of `p` are
arbitrary. -/
theorem deleteUsersRun_filter_ok (p : DeleteUsersParams) (u : String)
    (ur : Except GoErr (List User)) (dres : String → String → Except GoErr JValue)
    (v : JValue) (hu : p.userID = some u) (hd : dres "user" u = .ok v) :
    deleteUsersRun [p] ur dres =
      (.ok ⟨"Entity deleted successfully."⟩, [("user", u)]) := by
  unfold deleteUsersRun
  simp only [List.headD, resolveTargets_userID p u hu]
  simp [deleteLoop, hd]

/-- `DeleteUsers` with a user-id filter whose DELETE fails: the failure is
re-wrapped as an `APIError` with status 0 naming the entity. -/
theorem deleteUsersRun_filter_fail (p : DeleteUsersParams) (u : String)
    (ur : Except GoErr (List User)) (dres : String → String → Except GoErr JValue)
    (err : GoErr) (hu : p.userID = some u) (hd : dres "user" u = .error err) :
    deleteUsersRun [p] ur dres =
      (.error (.apiError
        ("Failed to delete " ++ "user" ++ " " ++ u ++ ": " ++ err.errString) 0 ""),
       [("user", u)]) := by
  unfold deleteUsersRun
  simp only [List.headD, resolveTargets_userID p u hu]
  simp [deleteLoop, hd]

/-- `DeleteUsers` with no filter: the first per-entity failure aborts the
loop after the calls up to and including the failing one. -/
theorem deleteUsersRun_noFilter_abort (pre post : List User) (e : User)
    (dres : String → String → Except GoErr JValue) (err : GoErr)
    (hpre : ∀ x ∈ pre, isOkB (dres x.type x.name) = true)
    (hfail : dres e.type e.name = .error err) :
    deleteUsersRun [] (.ok (pre ++ e :: post)) dres =
      (.error (.apiError
        ("Failed to delete " ++ e.type ++ " " ++ e.name ++ ": " ++ err.errString) 0 ""),
       (pre.map fun x => (x.type, x.name)) ++ [(e.type, e.name)]) := by
  have hloop := deleteLoop_abort dres (pre.map fun x => (x.type, x.name))
    (post.map fun x => (x.type, x.name)) e.type e.name err
    (by intro x hx
        rcases List.mem_map.mp hx with ⟨y, hy, rfl⟩
        exact hpre y hy)
    hfail
  unfold deleteUsersRun
  simp only [List.headD, resolveTargets_empty, Except.map, List.map_append,
    List.map_cons]
  rw [if_neg (by simp), hloop]

/-! ### GetAll request shape -/

theorem paginationParams_merge (c : MemoryClient) (m0 : MemoryOptions) :
    paginationParams (mergeOrgProject c m0) = paginationParams m0 := by
  unfold paginationParams
  rw [mergeOrgProject_page, mergeOrgProject_pageSize]

theorem getAllRequest_v2 (c : MemoryClient) (options : SearchOptions)
    (hv : options.memoryOptions.apiVersion = some "v2") :
    getAllRequest c options =
      { method := "POST", path := "/v2/memories/"
      , query := paginationParams options.memoryOptions
      , body := some (optEntry "org_id"
                  ((mergeOrgProject c options.memoryOptions).orgID.map OrgVal.toJ)
                ++ optEntry "project_id"
                  ((mergeOrgProject c options.memoryOptions).projectID.map OrgVal.toJ)) } := by
  have hc : (mergeOrgProject c options.memoryOptions).apiVersion = some "v2" := by
    rw [mergeOrgProject_apiVersion]; exact hv
  simp only [getAllRequest, hc, reduceIte, paginationParams_merge]

theorem getAllRequest_v1 (c : MemoryClient) (options : SearchOptions)
    (hv : options.memoryOptions.apiVersion ≠ some "v2") :
    getAllRequest c options =
      { method := "GET", path := "/v1/memories/"
      , query := prepareParamsMemory (mergeOrgProject c options.memoryOptions)
                   ++ paginationParams options.memoryOptions
      , body := none } := by
  have hc : ¬ (mergeOrgProject c options.memoryOptions).apiVersion = some "v2" := by
    rw [mergeOrgProject_apiVersion]; exact hv
  simp only [getAllRequest, if_neg hc, paginationParams_merge]

theorem mem_optEntry {α : Type} (k : String) (v : Option α) (kv : String × α)
    (h : kv ∈ optEntry k v) : kv.1 = k := by
  cases v with
  | none => simp [optEntry] at h
  | some x => simp [optEntry] at h; rw [h]

theorem pagination_page_isSome (m : MemoryOptions) :
    (lookupKey "page" (paginationParams m)).isSome ↔
      m.page.isSome ∧ m.pageSize.isSome := by
  cases hp : m.page <;> cases hq : m.pageSize <;>
    simp [paginationParams, hp, hq, lookupKey]

theorem pagination_pageSize_isSome (m : MemoryOptions) :
    (lookupKey "page_size" (paginationParams m)).isSome ↔
      m.page.isSome ∧ m.pageSize.isSome := by
  cases hp : m.page <;> cases hq : m.pageSize <;>
    simp [paginationParams, hp, hq, lookupKey]

/-- `DeleteUsers` with no filter and no entities (or any filterless call
whose target set is empty): a plain wrapped error before any DELETE. -/
theorem deleteUsersRun_empty_target (params : List DeleteUsersParams)
    (dres : String → String → Except GoErr JValue)
    (h : resolveTargets (params.headD {}) = none) :
    deleteUsersRun params (.ok []) dres =
      (.error (.wrapped "no entities to delete"), []) := by
  unfold deleteUsersRun
  simp only [h, Except.map, List.map_nil]
  rfl

/-! ### Claims -/

/-- C1: for every `MemoryOptions` value and every `SearchOptions` value, an
option field left unset (`none`) never contributes its wire key to the body
map built by `preparePayload` or to the query-parameter maps built by
`prepareParams`, and a key present in those maps always comes from the
corresponding set field: looking up each wire name returns exactly the
rendered field value, and every key outside the recognized wire names is
absent. -/
theorem claim_C1_unset_fields_omitted (ms : List Message) (o : MemoryOptions)
    (so : SearchOptions) :
    (lookupKey "api_version" (preparePayload ms o) = o.apiVersion.map JValue.str)
  ∧ (lookupKey "version" (preparePayload ms o) = o.version.map JValue.str)
  ∧ (lookupKey "user_id" (preparePayload ms o) = o.userID.map JValue.str)
  ∧ (lookupKey "agent_id" (preparePayload ms o) = o.agentID.map JValue.str)
  ∧ (lookupKey "app_id" (preparePayload ms o) = o.appID.map JValue.str)
  ∧ (lookupKey "run_id" (preparePayload ms o) = o.runID.map JValue.str)
  ∧ (lookupKey "metadata" (preparePayload ms o) = o.metadata.map JValue.obj)
  ∧ (lookupKey "filters" (preparePayload ms o) = o.filters.map JValue.obj)
  ∧ (lookupKey "org_name" (preparePayload ms o) = o.orgName.map JValue.str)
  ∧ (lookupKey "project_name" (preparePayload ms o) = o.projectName.map JValue.str)
  ∧ (lookupKey "org_id" (preparePayload ms o) = o.orgID.map OrgVal.toJ)
  ∧ (lookupKey "project_id" (preparePayload ms o) = o.projectID.map OrgVal.toJ)
  ∧ (lookupKey "infer" (preparePayload ms o) = o.infer.map JValue.bool)
  ∧ (lookupKey "enable_graph" (preparePayload ms o) = o.enableGraph.map JValue.bool)
  ∧ (lookupKey "custom_categories" (preparePayload ms o)
       = o.customCategories.map (fun l => JValue.arr (l.map JValue.obj)))
  ∧ (lookupKey "custom_instructions" (preparePayload ms o)
       = o.customInstructions.map JValue.str)
  ∧ (lookupKey "output_format" (preparePayload ms o) = o.outputFormat.map JValue.str)
  ∧ (lookupKey "async_mode" (preparePayload ms o) = o.asyncMode.map JValue.bool)
  ∧ (∀ k : String,
       k ∉ ["messages", "api_version", "version", "user_id", "agent_id", "app_id",
            "run_id", "metadata", "filters", "org_name", "project_name", "org_id",
            "project_id", "infer", "enable_graph", "custom_categories",
            "custom_instructions", "output_format", "async_mode"] →
       lookupKey k (preparePayload ms o) = none)
  ∧ (lookupKey "user_id" (prepareParamsMemory o) = o.userID)
  ∧ (lookupKey "agent_id" (prepareParamsMemory o) = o.agentID)
  ∧ (lookupKey "app_id" (prepareParamsMemory o) = o.appID)
  ∧ (lookupKey "run_id" (prepareParamsMemory o) = o.runID)
  ∧ (lookupKey "org_name" (prepareParamsMemory o) = o.orgName)
  ∧ (lookupKey "project_name" (prepareParamsMemory o) = o.projectName)
  ∧ (lookupKey "org_id" (prepareParamsMemory o) = o.orgID.map OrgVal.formatV)
  ∧ (lookupKey "project_id" (prepareParamsMemory o) = o.projectID.map OrgVal.formatV)
  ∧ (∀ k : String,
       k ∉ ["user_id", "agent_id", "app_id", "run_id", "org_name", "project_name",
            "org_id", "project_id"] →
       lookupKey k (prepareParamsMemory o) = none)
  ∧ (lookupKey "user_id" (prepareParamsSearch so) = so.memoryOptions.userID)
  ∧ (∀ k : String, k ≠ "user_id" → lookupKey k (prepareParamsSearch so) = none) :=
  ⟨payload_lookup_api_version ms o, payload_lookup_version ms o,
   payload_lookup_user_id ms o, payload_lookup_agent_id ms o,
   payload_lookup_app_id ms o, payload_lookup_run_id ms o,
   payload_lookup_metadata ms o, payload_lookup_filters ms o,
   payload_lookup_org_name ms o, payload_lookup_project_name ms o,
   payload_lookup_org_id ms o, payload_lookup_project_id ms o,
   payload_lookup_infer ms o, payload_lookup_enable_graph ms o,
   payload_lookup_custom_categories ms o, payload_lookup_custom_instructions ms o,
   payload_lookup_output_format ms o, payload_lookup_async_mode ms o,
   payload_lookup_other_none ms o,
   params_lookup_user_id o, params_lookup_agent_id o, params_lookup_app_id o,
   params_lookup_run_id o, params_lookup_org_name o, params_lookup_project_name o,
   params_lookup_org_id o, params_lookup_project_id o,
   params_lookup_other_none o,
   searchParams_lookup_user_id so, searchParams_lookup_other_none so⟩

/-- C1 witness: concrete evaluations of the omission property. -/
theorem claim_C1_witness :
    lookupKey "user_id" (preparePayload [] { userID := some "u1", page := some 3 })
      = some (JValue.str "u1")
  ∧ lookupKey "page" (preparePayload [] { userID := some "u1", page := some 3 }) = none
  ∧ lookupKey "user_id" (prepareParamsMemory { userID := some "u1", page := some 3 })
      = some "u1"
  ∧ lookupKey "metadata" (prepareParamsMemory { userID := some "u1", page := some 3 })
      = none
  ∧ lookupKey "agent_id" (prepareParamsSearch {}) = none := by
  obtain ⟨e1, e2, e3, e4, e5, e6, e7, e8, e9, e10, e11, e12, e13, e14, e15, e16, e17,
    e18, hpay, p1, p2, p3, p4, p5, p6, p7, p8, hpar, hs1, hs2⟩ :=
    claim_C1_unset_fields_omitted [] { userID := some "u1", page := some 3 } {}
  exact ⟨e3.trans rfl, hpay "page" (by decide), p1.trans rfl,
    hpar "metadata" (by decide), hs2 "agent_id" (by decide)⟩

/-- C2: when the client carries both the id-form and the (deprecated)
name-form org/project configuration, the body built for `Add` contains the
`org_id` and `project_id` keys and no `org_name`/`project_name` key. -/
theorem claim_C2_idForm_wins (c : MemoryClient) (ms : List Message)
    (o : MemoryOptions) (oid pid : OrgVal) (onm pnm : String)
    (_hon : c.organizationName = some onm) (_hpn : c.projectName = some pnm)
    (hoi : c.organizationID = some oid) (hpi : c.projectID = some pid) :
    lookupKey "org_id" (addPayload c ms o) = some (OrgVal.toJ oid)
  ∧ lookupKey "project_id" (addPayload c ms o) = some (OrgVal.toJ pid)
  ∧ lookupKey "org_name" (addPayload c ms o) = none
  ∧ lookupKey "project_name" (addPayload c ms o) = none := by
  obtain ⟨m1, m2, m3, m4⟩ := mergeOrgProject_ids c o oid pid hoi hpi
  refine ⟨?_, ?_, ?_, ?_⟩
  · simp only [addPayload, payload_lookup_org_id, applyVersion_orgID, m1,
      Option.map_some']
  · simp only [addPayload, payload_lookup_project_id, applyVersion_projectID, m2,
      Option.map_some']
  · simp only [addPayload, payload_lookup_org_name, applyVersion_orgName, m3,
      Option.map_none']
  · simp only [addPayload, payload_lookup_project_name, applyVersion_projectName, m4,
      Option.map_none']

/-- C2 witness: a client with all four org/project fields populated. -/
theorem claim_C2_witness :
    lookupKey "org_id"
      (addPayload ⟨"k", "https://api.mem0.ai", some "legacy-org", some "legacy-proj",
        some (.str "org-1"), some (.num 7), ""⟩ [] {})
      = some (OrgVal.toJ (.str "org-1"))
  ∧ lookupKey "project_id"
      (addPayload ⟨"k", "https://api.mem0.ai", some "legacy-org", some "legacy-proj",
        some (.str "org-1"), some (.num 7), ""⟩ [] {})
      = some (OrgVal.toJ (.num 7))
  ∧ lookupKey "org_name"
      (addPayload ⟨"k", "https://api.mem0.ai", some "legacy-org", some "legacy-proj",
        some (.str "org-1"), some (.num 7), ""⟩ [] {})
      = none
  ∧ lookupKey "project_name"
      (addPayload ⟨"k", "https://api.mem0.ai", some "legacy-org", some "legacy-proj",
        some (.str "org-1"), some (.num 7), ""⟩ [] {})
      = none :=
  claim_C2_idForm_wins ⟨"k", "https://api.mem0.ai", some "legacy-org",
    some "legacy-proj", some (.str "org-1"), some (.num 7), ""⟩ [] {}
    (.str "org-1") (.num 7) "legacy-org" "legacy-proj" rfl rfl rfl rfl

/-- C3: `GetAll` with API version v2 issues `POST /v2/memories/` with a body
holding only the org/project context; with v1 or no version it issues
`GET /v1/memories/` with the options as query parameters and no body; in
both cases the `page` and `page_size` parameters appear in the request
exactly when both `Page` and `PageSize` are set. -/
theorem claim_C3_getAll_version_routing (c : MemoryClient) (options : SearchOptions) :
    (options.memoryOptions.apiVersion = some "v2" →
       (getAllRequest c options).method = "POST"
     ∧ (getAllRequest c options).path = "/v2/memories/"
     ∧ ∀ kv ∈ ((getAllRequest c options).body.getD []),
         kv.1 = "org_id" ∨ kv.1 = "project_id")
  ∧ (options.memoryOptions.apiVersion ≠ some "v2" →
       (getAllRequest c options).method = "GET"
     ∧ (getAllRequest c options).path = "/v1/memories/"
     ∧ (getAllRequest c options).body = none
     ∧ (getAllRequest c options).query =
         prepareParamsMemory (mergeOrgProject c options.memoryOptions)
           ++ paginationParams options.memoryOptions)
  ∧ ((lookupKey "page" (getAllRequest c options).query).isSome ↔
       options.memoryOptions.page.isSome ∧ options.memoryOptions.pageSize.isSome)
  ∧ ((lookupKey "page_size" (getAllRequest c options).query).isSome ↔
       options.memoryOptions.page.isSome ∧ options.memoryOptions.pageSize.isSome) := by
  refine ⟨?_, ?_, ?_, ?_⟩
  · intro hv
    rw [getAllRequest_v2 c options hv]
    refine ⟨rfl, rfl, ?_⟩
    intro kv hkv
    simp only [Option.getD_some] at hkv
    rcases List.mem_append.mp hkv with h | h
    · exact Or.inl (mem_optEntry _ _ _ h)
    · exact Or.inr (mem_optEntry _ _ _ h)
  · intro hv
    rw [getAllRequest_v1 c options hv]
    exact ⟨rfl, rfl, rfl, rfl⟩
  · by_cases hv : options.memoryOptions.apiVersion = some "v2"
    · rw [getAllRequest_v2 c options hv]
      exact pagination_page_isSome options.memoryOptions
    · rw [getAllRequest_v1 c options hv]
      show (lookupKey "page" (prepareParamsMemory _ ++ _)).isSome ↔ _
      rw [lookupKey_append, params_lookup_other_none _ "page" (by decide),
        Option.none_or]
      exact pagination_page_isSome options.memoryOptions
  · by_cases hv : options.memoryOptions.apiVersion = some "v2"
    · rw [getAllRequest_v2 c options hv]
      exact pagination_pageSize_isSome options.memoryOptions
    · rw [getAllRequest_v1 c options hv]
      show (lookupKey "page_size" (prepareParamsMemory _ ++ _)).isSome ↔ _
      rw [lookupKey_append, params_lookup_other_none _ "page_size" (by decide),
        Option.none_or]
      exact pagination_pageSize_isSome options.memoryOptions

/-- C3 witness: concrete v2 and v1 requests with and without pagination. -/
theorem claim_C3_witness :
    (getAllRequest ⟨"k", "h", none, none, none, none, ""⟩
       { memoryOptions := { apiVersion := some "v2" } }).method = "POST"
  ∧ (getAllRequest ⟨"k", "h", none, none, none, none, ""⟩
       { memoryOptions := { apiVersion := some "v2" } }).path = "/v2/memories/"
  ∧ ((lookupKey "page" (getAllRequest ⟨"k", "h", none, none, none, none, ""⟩
       { memoryOptions := { page := some 1, pageSize := some 10 } }).query).isSome ↔
       (some 1 : Option Int).isSome ∧ (some 10 : Option Int).isSome)
  ∧ (getAllRequest ⟨"k", "h", none, none, none, none, ""⟩
       { memoryOptions := { page := some 1, pageSize := some 10 } }).method = "GET" := by
  have h2 := claim_C3_getAll_version_routing ⟨"k", "h", none, none, none, none, ""⟩
    { memoryOptions := { apiVersion := some "v2" } }
  have h1 := claim_C3_getAll_version_routing ⟨"k", "h", none, none, none, none, ""⟩
    { memoryOptions := { page := some 1, pageSize := some 10 } }
  obtain ⟨hv2, -, -, -⟩ := h2
  obtain ⟨-, hv1, hpage, -⟩ := h1
  obtain ⟨hm, hp, -⟩ := hv2 rfl
  obtain ⟨hm1, -, -, -⟩ := hv1 (by decide)
  exact ⟨hm, hp, hpage, hm1⟩

/-- C4: construction with an empty or whitespace-only API key fails with a
`ValidationError` on the field `apiKey` before any network request is
issued; with any other key the validation step succeeds. -/
theorem claim_C4_apiKey_validation (o : ClientOptions) :
    (o.apiKey.toList.all isGoSpace = true →
       (NewMemoryClient o).1 = .error (.validationErr "apiKey"
         (if o.apiKey = "" then "Mem0 API key is required"
          else "Mem0 API key cannot be empty"))
     ∧ (NewMemoryClient o).2 = [])
  ∧ (o.apiKey.toList.all isGoSpace = false → validateAPIKey o.apiKey = none) := by
  constructor
  · intro hall
    have htrim : trimChars o.apiKey.toList = [] :=
      (trimChars_eq_nil_iff _).mpr (by simpa [List.all_eq_true] using hall)
    by_cases he : o.apiKey = ""
    · constructor
      · unfold NewMemoryClient validateAPIKey
        simp [he]
      · unfold NewMemoryClient validateAPIKey
        simp [he]
    · have htrim' : trimChars o.apiKey.data = [] := htrim
      constructor
      · unfold NewMemoryClient validateAPIKey
        simp [he, htrim']
      · unfold NewMemoryClient validateAPIKey
        simp [he, htrim']
  · intro hfalse
    have hne : ¬ ∀ c ∈ o.apiKey.toList, isGoSpace c := by
      intro hforall
      rw [List.all_eq_true.mpr hforall] at hfalse
      simp at hfalse
    have htrim : trimChars o.apiKey.toList ≠ [] := by
      rw [Ne, trimChars_eq_nil_iff]; exact hne
    have he : o.apiKey ≠ "" := by
      intro h
      rw [h] at hfalse
      exact absurd hfalse (by decide)
    unfold validateAPIKey
    rw [if_neg he, if_neg htrim]

/-- C4 witness: a whitespace-only key fails with no request issued, a
normal key validates. -/
theorem claim_C4_witness :
    (NewMemoryClient { apiKey := "  " }).1 =
      .error (.validationErr "apiKey" "Mem0 API key cannot be empty")
  ∧ (NewMemoryClient { apiKey := "  " }).2 = []
  ∧ validateAPIKey "m0-key" = none := by
  have hws := claim_C4_apiKey_validation { apiKey := "  " }
  have hok := claim_C4_apiKey_validation { apiKey := "m0-key" }
  obtain ⟨h1, h2⟩ := hws.1 (by decide)
  exact ⟨by simpa using h1, h2, hok.2 (by decide)⟩

/-- C5 counterexample: a 403 response to the per-entity DELETE of
`DeleteUsers` is surfaced as an `APIError` whose status code is 0, not 403,
so the claim fails for the `DeleteUsers` operation. -/
theorem claim_C5_counterexample :
    deleteUsersRun [{ userID := some "alice" }] (.ok [])
        (fun _ _ => fetchWithErrorHandling (.response 403 "forbidden" (.error "bad")))
      = (.error (.apiError
          ("Failed to delete " ++ "user" ++ " " ++ "alice" ++ ": " ++
            "API request failed (status 403): forbidden") 0 ""),
         [("user", "alice")])
  ∧ ¬ ((0 : Int) = 403) := by
  exact ⟨rfl, by decide⟩

/-- C5 (amended): `fetchWithErrorHandling` surfaces every response with a
status outside 2xx as an `APIError` whose status code equals the HTTP
status and whose message and body are the raw response body — this is what
every operation returns for its own endpoint — except that `DeleteUsers`
re-wraps a failing per-entity DELETE into an `APIError` with status code 0
whose message names the failing entity. -/
theorem claim_C5_non2xx_apiError :
    (∀ (s : Int) (b : String) (d : Except String JValue),
       (s < 200 ∨ s ≥ 300) →
       fetchWithErrorHandling (.response s b d) = .error (.apiError b s b))
  ∧ (∀ (p : DeleteUsersParams) (u : String) (ur : Except GoErr (List User))
       (dres : String → String → Except GoErr JValue) (err : GoErr),
       p.userID = some u → dres "user" u = .error err →
       deleteUsersRun [p] ur dres =
         (.error (.apiError
           ("Failed to delete " ++ "user" ++ " " ++ u ++ ": " ++ err.errString) 0 ""),
          [("user", u)])) := by
  constructor
  · intro s b d hs
    show (if s < 200 ∨ s ≥ 300 then _ else _) = _
    rw [if_pos hs]
  · intro p u ur dres err hu hd
    exact deleteUsersRun_filter_fail p u ur dres err hu hd

/-- C5 witness: a concrete 401 response and a concrete wrapped DeleteUsers
failure. -/
theorem claim_C5_witness :
    fetchWithErrorHandling (.response 401 "unauthorized" (.ok .null))
      = .error (.apiError "unauthorized" 401 "unauthorized")
  ∧ deleteUsersRun [{ userID := some "bob" }] (.ok [])
      (fun _ _ => .error (.wrapped "boom"))
      = (.error (.apiError
          ("Failed to delete " ++ "user" ++ " " ++ "bob" ++ ": " ++ "boom") 0 ""),
         [("user", "bob")]) :=
  ⟨claim_C5_non2xx_apiError.1 401 "unauthorized" (.ok .null) (by decide),
   claim_C5_non2xx_apiError.2 { userID := some "bob" } "bob" (.ok [])
     (fun _ _ => .error (.wrapped "boom")) (.wrapped "boom") rfl rfl⟩

/-- C6 counterexample: a transport failure and a malformed 2xx body are
surfaced as plain wrapped errors, not as `APIError` values with status 0,
so the claim fails as stated. -/
theorem claim_C6_counterexample :
    fetchWithErrorHandling (.transportErr "dial tcp: connection refused")
      = .error (.wrapped "request failed: dial tcp: connection refused")
  ∧ GoErr.isAPIErr (.wrapped "request failed: dial tcp: connection refused") = false
  ∧ fetchWithErrorHandling (.response 200 "not-json" (.error "invalid character"))
      = .error (.wrapped "failed to parse response JSON: invalid character")
  ∧ GoErr.isAPIErr (.wrapped "failed to parse response JSON: invalid character")
      = false := by
  exact ⟨rfl, rfl, rfl, rfl⟩

/-- C6 (amended): transport-level failures and malformed JSON bodies of 2xx
responses are surfaced as plain wrapped errors (`request failed: …`,
`failed to parse response JSON: …`), which are not `APIError` values at
all; callers distinguish them from API errors by error type, not by a zero
status code. -/
theorem claim_C6_transport_wrapped :
    (∀ msg : String,
       fetchWithErrorHandling (.transportErr msg)
         = .error (.wrapped ("request failed: " ++ msg))
     ∧ GoErr.isAPIErr (.wrapped ("request failed: " ++ msg)) = false)
  ∧ (∀ (s : Int) (b jsonErr : String), 200 ≤ s → s < 300 →
       fetchWithErrorHandling (.response s b (.error jsonErr))
         = .error (.wrapped ("failed to parse response JSON: " ++ jsonErr))
     ∧ GoErr.isAPIErr (.wrapped ("failed to parse response JSON: " ++ jsonErr))
         = false) := by
  constructor
  · intro msg
    exact ⟨rfl, rfl⟩
  · intro s b jsonErr h1 h2
    constructor
    · show (if s < 200 ∨ s ≥ 300 then _ else _) = _
      rw [if_neg (by omega)]
    · rfl

/-- C6 witness: concrete transport and JSON-parse failures. -/
theorem claim_C6_witness :
    fetchWithErrorHandling (.transportErr "refused")
      = .error (.wrapped ("request failed: " ++ "refused"))
  ∧ fetchWithErrorHandling (.response 250 "x" (.error "bad"))
      = .error (.wrapped ("failed to parse response JSON: " ++ "bad")) :=
  ⟨(claim_C6_transport_wrapped.1 "refused").1,
   (claim_C6_transport_wrapped.2 250 "x" "bad" (by decide) (by decide)).1⟩

/-- C7: `DeleteUsers` with no filter and N entities issues exactly the N
per-entity DELETE calls in order and returns the bulk-deletion message;
with a user-id filter it issues exactly one call and returns the
single-entity message; the first per-entity failure aborts after the calls
made so far and is reported as an `APIError` naming the failing entity. -/
theorem claim_C7_deleteUsers_calls :
    (∀ (entities : List User) (dres : String → String → Except GoErr JValue),
       entities ≠ [] →
       (∀ e ∈ entities, isOkB (dres e.type e.name) = true) →
       deleteUsersRun [] (.ok entities) dres =
         (.ok ⟨"All users, agents, apps and runs deleted."⟩,
          entities.map fun e => (e.type, e.name)))
  ∧ (∀ (p : DeleteUsersParams) (u : String) (ur : Except GoErr (List User))
       (dres : String → String → Except GoErr JValue) (v : JValue),
       p.userID = some u → dres "user" u = .ok v →
       deleteUsersRun [p] ur dres =
         (.ok ⟨"Entity deleted successfully."⟩, [("user", u)]))
  ∧ (∀ (pre post : List User) (e : User)
       (dres : String → String → Except GoErr JValue) (err : GoErr),
       (∀ x ∈ pre, isOkB (dres x.type x.name) = true) →
       dres e.type e.name = .error err →
       deleteUsersRun [] (.ok (pre ++ e :: post)) dres =
         (.error (.apiError
           ("Failed to delete " ++ e.type ++ " " ++ e.name ++ ": " ++ err.errString)
           0 ""),
          (pre.map fun x => (x.type, x.name)) ++ [(e.type, e.name)])) :=
  ⟨deleteUsersRun_noFilter_allOk,
   deleteUsersRun_filter_ok,
   fun pre post e dres err h1 h2 =>
     deleteUsersRun_noFilter_abort pre post e dres err h1 h2⟩

/-- C7 witness: two entities deleted in order with the bulk message, and a
single filtered deletion with the single-entity message. -/
theorem claim_C7_witness :
    deleteUsersRun []
        (.ok [⟨"1", "alice", "", "", 0, "", "user"⟩, ⟨"2", "run-7", "", "", 0, "", "run"⟩])
        (fun _ _ => .ok .null)
      = (.ok ⟨"All users, agents, apps and runs deleted."⟩,
         [("user", "alice"), ("run", "run-7")])
  ∧ deleteUsersRun [{ userID := some "alice" }] (.ok []) (fun _ _ => .ok .null)
      = (.ok ⟨"Entity deleted successfully."⟩, [("user", "alice")]) := by
  constructor
  · have h := claim_C7_deleteUsers_calls.1
      [⟨"1", "alice", "", "", 0, "", "user"⟩, ⟨"2", "run-7", "", "", 0, "", "run"⟩]
      (fun _ _ => .ok .null) (by simp) (fun e he => rfl)
    simpa using h
  · exact claim_C7_deleteUsers_calls.2.1 { userID := some "alice" } "alice" (.ok [])
      (fun _ _ => .ok .null) .null rfl rfl

/-- C8 counterexample: `DeleteUsers` with no filter and no entities fails
with the plain error `no entities to delete`, which is not a
`ValidationError`, so the claim fails as stated. -/
theorem claim_C8_counterexample :
    deleteUsersRun [] (.ok []) (fun _ _ => .ok .null)
      = (.error (.wrapped "no entities to delete"), [])
  ∧ GoErr.isValidationErr (.wrapped "no entities to delete") = false := by
  exact ⟨rfl, rfl⟩

/-- C8 (amended): `DeleteUsers` with an empty resolved target set fails,
before any DELETE call, with the plain untyped error
`no entities to delete` — neither a `ValidationError` nor an `APIError`. -/
theorem claim_C8_empty_target_plain_error (params : List DeleteUsersParams)
    (dres : String → String → Except GoErr JValue)
    (h : resolveTargets (params.headD {}) = none) :
    deleteUsersRun params (.ok []) dres =
      (.error (.wrapped "no entities to delete"), [])
  ∧ GoErr.isValidationErr (.wrapped "no entities to delete") = false
  ∧ GoErr.isAPIErr (.wrapped "no entities to delete") = false :=
  ⟨deleteUsersRun_empty_target params dres h, rfl, rfl⟩

/-- C8 witness: an explicit empty `DeleteUsersParams` with no entities. -/
theorem claim_C8_witness :
    deleteUsersRun [{}] (.ok []) (fun _ _ => .ok .null)
      = (.error (.wrapped "no entities to delete"), []) :=
  (claim_C8_empty_target_plain_error [{}] (fun _ _ => .ok .null) rfl).1

/-- C9 counterexample: a numeric `org_id` and the string of its digits
produce identical query parameters, so reading the parameters back cannot
recover the original value with string/number identity: the number was
coerced to its decimal string by the `%v` formatting. -/
theorem claim_C9_counterexample :
    prepareParamsMemory { orgID := some (.str "42") }
      = prepareParamsMemory { orgID := some (.num 42) }
  ∧ ({ orgID := some (.str "42") } : MemoryOptions).orgID
      ≠ ({ orgID := some (.num 42) } : MemoryOptions).orgID := by
  exact ⟨rfl, by decide⟩

/-- C9 (amended): reading each known key back from the query parameters
built by `prepareParams` yields the original string value unchanged for the
string-typed fields, while `org_id`/`project_id` are read back as the
`%v` rendering of the original — the identical string when the value was a
string, the decimal digit string when it was a number (so numeric type
identity is not preserved). -/
theorem claim_C9_params_roundtrip (o : MemoryOptions) :
    lookupKey "user_id" (prepareParamsMemory o) = o.userID
  ∧ lookupKey "agent_id" (prepareParamsMemory o) = o.agentID
  ∧ lookupKey "app_id" (prepareParamsMemory o) = o.appID
  ∧ lookupKey "run_id" (prepareParamsMemory o) = o.runID
  ∧ lookupKey "org_name" (prepareParamsMemory o) = o.orgName
  ∧ lookupKey "project_name" (prepareParamsMemory o) = o.projectName
  ∧ lookupKey "org_id" (prepareParamsMemory o) = o.orgID.map OrgVal.formatV
  ∧ lookupKey "project_id" (prepareParamsMemory o) = o.projectID.map OrgVal.formatV :=
  ⟨params_lookup_user_id o, params_lookup_agent_id o, params_lookup_app_id o,
   params_lookup_run_id o, params_lookup_org_name o, params_lookup_project_name o,
   params_lookup_org_id o, params_lookup_project_id o⟩

/-- C10: when several of the `DeleteUsersParams` filter fields are set, the
fixed priority user over agent over app over run selects a single target,
the lower-priority fields are ignored, and exactly one DELETE call is
issued. -/
theorem claim_C10_filter_priority :
    (∀ (p : DeleteUsersParams) (u : String),
       p.userID = some u → resolveTargets p = some [("user", u)])
  ∧ (∀ (p : DeleteUsersParams) (a : String),
       p.userID = none → p.agentID = some a → resolveTargets p = some [("agent", a)])
  ∧ (∀ (p : DeleteUsersParams) (a : String),
       p.userID = none → p.agentID = none → p.appID = some a →
       resolveTargets p = some [("app", a)])
  ∧ (∀ (p : DeleteUsersParams) (r : String),
       p.userID = none → p.agentID = none → p.appID = none → p.runID = some r →
       resolveTargets p = some [("run", r)])
  ∧ (∀ (p : DeleteUsersParams) (l : List (String × String)),
       resolveTargets p = some l → l.length = 1)
  ∧ (∀ (p : DeleteUsersParams) (u : String) (ur : Except GoErr (List User))
       (dres : String → String → Except GoErr JValue) (v : JValue),
       p.userID = some u → dres "user" u = .ok v →
       (deleteUsersRun [p] ur dres).2 = [("user", u)]) := by
  refine ⟨resolveTargets_userID, ?_, ?_, ?_, ?_, ?_⟩
  · intro p a h1 h2
    unfold resolveTargets
    rw [h1, h2]
  · intro p a h1 h2 h3
    unfold resolveTargets
    rw [h1, h2, h3]
  · intro p r h1 h2 h3 h4
    unfold resolveTargets
    rw [h1, h2, h3, h4]
  · intro p l h
    unfold resolveTargets at h
    cases h1 : p.userID with
    | some u => rw [h1] at h; injection h with h'; rw [← h']; rfl
    | none =>
      rw [h1] at h
      cases h2 : p.agentID with
      | some a => rw [h2] at h; injection h with h'; rw [← h']; rfl
      | none =>
        rw [h2] at h
        cases h3 : p.appID with
        | some a => rw [h3] at h; injection h with h'; rw [← h']; rfl
        | none =>
          rw [h3] at h
          cases h4 : p.runID with
          | some r => rw [h4] at h; injection h with h'; rw [← h']; rfl
          | none => rw [h4] at h; exact absurd h (by simp)
  · intro p u ur dres v hu hd
    rw [deleteUsersRun_filter_ok p u ur dres v hu hd]

/-- C10 witness: all four filter fields set resolves to the user target
only, and exactly one DELETE is issued. -/
theorem claim_C10_witness :
    resolveTargets
      { userID := some "u", agentID := some "a", appID := some "ap", runID := some "r" }
      = some [("user", "u")]
  ∧ (deleteUsersRun [{ userID := some "u", agentID := some "a" }] (.ok [])
       (fun _ _ => .ok .null)).2 = [("user", "u")] :=
  ⟨claim_C10_filter_priority.1
     { userID := some "u", agentID := some "a", appID := some "ap", runID := some "r" }
     "u" rfl,
   claim_C10_filter_priority.2.2.2.2.2 { userID := some "u", agentID := some "a" }
     "u" (.ok []) (fun _ _ => .ok .null) .null rfl rfl⟩

end Mem0
